import Mathlib

/-!
Shallow embedding of the PGC-DHA browser-side auth context
(`AuthProvider` and its reducer) and the student attendance view
(`StudentAttendanceView` in StatsCards.jsx), plus theorems checking the
specification's claims about them.

Modelling conventions:
  - JS `null`/`undefined` fields become `Option`.
  - JS string falsiness (`x || d` where `""` is falsy) is `jsOrStr`.
  - JS array defaulting (`xs || []`, where `[]` is truthy) is `Option.getD`.
  - A rejected promise / thrown error is the `Except.error` branch carrying
    a `JsError` (optional numeric status, optional message), matching the
    error objects the code inspects.
  - React `dispatch` sequences are modelled as explicit lists of actions
    folded through the reducer (`applyActions`); the action functions are
    total Lean functions, mirroring the catch-all `try`/`catch` wrappers
    in the source that prevent anything from being thrown to the caller.
-/

/-- A named permission entry, as found in `state.permissions` (the code
tests `perm.name === permission`). -/
structure Permission where
  name : String
deriving DecidableEq, Repr

/-- A user record as cached in storage / returned by the server: the fields
the code reads (`user.role`, `user.id`, `user.permissions || []`). The
`permissions` field may be absent (`Option`), matching `userData.permissions
|| []`. -/
structure User where
  id : String
  role : String
  permissions : Option (List Permission)
deriving DecidableEq, Repr

/-- The auth context state held by `useReducer` in AuthContext. -/
structure AuthState where
  isAuthenticated : Bool
  isLoading : Bool
  user : Option User
  error : Option String
  permissions : List Permission
deriving DecidableEq, Repr

/-- `initialState` from AuthContext. -/
def initialState : AuthState :=
  { isAuthenticated := false
    isLoading := true
    user := none
    error := none
    permissions := [] }

/-- The `AUTH_ACTIONS` dispatched to `authReducer`. `loginSuccess`/`setUser`
carry the payload's possibly-absent permission array; the reducer applies the
`|| []` / `|| state.permissions` defaulting. `updateProfile` carries the JS
object-spread `{ ...state.user, ...action.payload }` as a function of the
previous (possibly null) user. -/
inductive AuthAction where
  | setLoading (b : Bool)
  | loginSuccess (user : User) (permissions : Option (List Permission))
  | loginFailure (msg : String)
  | logout
  | setUser (user : User) (permissions : Option (List Permission))
  | setError (msg : String)
  | clearError
  | updateProfile (patch : Option User → User)

/-- `authReducer` from AuthContext, case by case. The source's `default`
branch (return state unchanged) is unreachable here because the action type
enumerates exactly the dispatched action kinds. -/
def authReducer (state : AuthState) (action : AuthAction) : AuthState :=
  match action with
  | .setLoading b => { state with isLoading := b }
  | .loginSuccess u perms =>
      { state with
        isAuthenticated := true
        isLoading := false
        user := some u
        permissions := perms.getD []
        error := none }
  | .loginFailure msg =>
      { state with
        isAuthenticated := false
        isLoading := false
        user := none
        permissions := []
        error := some msg }
  | .logout => { initialState with isLoading := false }
  | .setUser u perms =>
      { state with
        user := some u
        permissions := perms.getD state.permissions
        isAuthenticated := true
        isLoading := false }
  | .setError msg => { state with error := some msg, isLoading := false }
  | .clearError => { state with error := none }
  | .updateProfile patch => { state with user := some (patch state.user) }

/-- Fold a dispatched action sequence through the reducer. -/
def applyActions (s : AuthState) (acts : List AuthAction) : AuthState :=
  acts.foldl authReducer s

/-- JS `s || d` for strings: `null`/`undefined` and `""` are falsy. -/
def jsOrStr (s : Option String) (d : String) : String :=
  match s with
  | some v => if v = "" then d else v
  | none => d

/-- An error object as inspected by the code: optional numeric `status` and
optional `message`. -/
structure JsError where
  status : Option Nat
  message : Option String
deriving DecidableEq, Repr

/-- Whether the character list starts with the characters `4`, `0`, `1`. -/
def startsWith401 : List Char → Bool
  | '4' :: '0' :: '1' :: _ => true
  | _ => false

/-- Whether the character list contains `401` as a contiguous run. -/
def has401 : List Char → Bool
  | [] => false
  | c :: rest => startsWith401 (c :: rest) || has401 rest

/-- The condition `verifyError.status === 401 ||
verifyError.message?.includes('401')` from `initializeAuth`. -/
def is401 (e : JsError) : Bool :=
  (match e.status with
   | some n => n == 401
   | none => false) ||
  (match e.message with
   | some m => has401 m.toList
   | none => false)

/-- The auth state after a `LOGOUT` dispatch: `{ ...initialState,
isLoading: false }`. -/
def loggedOutState : AuthState :=
  { initialState with isLoading := false }

/-- The auth state reached by restoring a cached user `u` at startup
(`SET_LOADING true` then `LOGIN_SUCCESS` with the cached record). -/
def cachedRestoreState (u : User) : AuthState :=
  { isAuthenticated := true
    isLoading := false
    user := some u
    error := none
    permissions := u.permissions.getD [] }

/-- `getCurrentUser`'s payload: `response.data.user || response.data` means
the user is either wrapped in a `user` field or is the data object itself. -/
inductive VerifyData where
  | wrapped (u : User)
  | bare (u : User)
deriving DecidableEq, Repr

/-- `const freshUserData = response.data.user || response.data`. -/
def freshUser : VerifyData → User
  | .wrapped u => u
  | .bare u => u

/-- A resolved `getCurrentUser` response. -/
structure VerifyResponse where
  success : Bool
  data : VerifyData
deriving DecidableEq, Repr

/-- Result of `initializeAuth`: the final reducer state and whether
`clearTokens()` was invoked. -/
structure InitResult where
  state : AuthState
  tokensCleared : Bool
deriving DecidableEq, Repr

/-- `initializeAuth` from AuthContext, as a function of the cached token,
the cached user record, and the outcome of the background
`authAPI.getCurrentUser()` call. A resolved-but-unsuccessful response
throws `new Error('Invalid session')`, which the catch block then
classifies exactly like a rejection (status `none`, message
`"Invalid session"`). -/
def initializeAuth (token : Option String) (userData : Option User)
    (verify : Except JsError VerifyResponse) : InitResult :=
  match token, userData with
  | some _, some u =>
      let restored :=
        applyActions initialState
          [.setLoading true, .loginSuccess u u.permissions]
      match verify with
      | .ok resp =>
          if resp.success then
            let fresh := freshUser resp.data
            { state := authReducer restored (.loginSuccess fresh fresh.permissions)
              tokensCleared := false }
          else
            let e : JsError := { status := none, message := some "Invalid session" }
            if is401 e then
              { state := authReducer restored .logout, tokensCleared := true }
            else
              { state := restored, tokensCleared := false }
      | .error e =>
          if is401 e then
            { state := authReducer restored .logout, tokensCleared := true }
          else
            { state := restored, tokensCleared := false }
  | _, _ =>
      { state := applyActions initialState [.setLoading true, .setLoading false]
        tokensCleared := false }

/-- The uniform result object returned by every auth action function:
`{ success: true, data }` or `{ success: false, error }`. -/
structure ActionResult (α : Type) where
  success : Bool
  data : Option α
  error : Option String
deriving DecidableEq, Repr

/-- An action function's observable behaviour: the dispatched actions and
the returned result object. -/
structure ActionOutcome (α : Type) where
  actions : List AuthAction
  result : ActionResult α

/-- `authAPI.login` / `authAPI.register` response shape: the code reads
`response.success`, `response.message` and `response.data.user`. -/
structure LoginData where
  user : User
deriving DecidableEq, Repr

/-- A resolved login/register response. -/
structure LoginResponse where
  success : Bool
  message : Option String
  data : LoginData
deriving DecidableEq, Repr

/-- `login` from AuthContext, as a function of the collaborator outcome.
An unsuccessful resolved response throws `new Error(response.message ||
'Login failed')`, which the catch block turns into the same failure path
as a rejection. -/
def login (outcome : Except JsError LoginResponse) : ActionOutcome LoginData :=
  match outcome with
  | .ok resp =>
      if resp.success then
        { actions :=
            [.setLoading true, .clearError,
             .loginSuccess resp.data.user resp.data.user.permissions]
          result := { success := true, data := some resp.data, error := none } }
      else
        let msg := jsOrStr resp.message "Login failed"
        { actions := [.setLoading true, .clearError, .loginFailure msg]
          result := { success := false, data := none, error := some msg } }
  | .error e =>
      let msg := jsOrStr e.message "Login failed"
      { actions := [.setLoading true, .clearError, .loginFailure msg]
        result := { success := false, data := none, error := some msg } }

/-- `register` from AuthContext. Note: its failure path dispatches
`SET_ERROR`, not `LOGIN_FAILURE`. -/
def register (outcome : Except JsError LoginResponse) : ActionOutcome LoginData :=
  match outcome with
  | .ok resp =>
      if resp.success then
        { actions :=
            [.setLoading true, .clearError,
             .loginSuccess resp.data.user resp.data.user.permissions]
          result := { success := true, data := some resp.data, error := none } }
      else
        let msg := jsOrStr resp.message "Registration failed"
        { actions := [.setLoading true, .clearError, .setError msg]
          result := { success := false, data := none, error := some msg } }
  | .error e =>
      let msg := jsOrStr e.message "Registration failed"
      { actions := [.setLoading true, .clearError, .setError msg]
        result := { success := false, data := none, error := some msg } }

/-- `logout` from AuthContext: whichever of `authAPI.logout` /
`authAPI.logoutAll` is called and however it ends, the `finally` block
dispatches `LOGOUT`. -/
def logout (logoutAll : Bool) (outcome : Except JsError Unit) : List AuthAction :=
  match logoutAll, outcome with
  | _, _ => [.logout]

/-- A generic resolved API response with a data payload, as consumed by
`updateProfile`, `changePassword`, `forgotPassword`, `resetPassword`,
`getSessions`, `revokeSession`. -/
structure ApiResp (α : Type) where
  success : Bool
  message : Option String
  data : α
deriving DecidableEq, Repr

/-- `updateProfile` from AuthContext. The dispatched `UPDATE_PROFILE`
payload merges into the current user by object spread, carried here as the
resulting merge function. -/
def updateProfile (outcome : Except JsError (ApiResp (Option User → User))) :
    ActionOutcome (Option User → User) :=
  match outcome with
  | .ok resp =>
      if resp.success then
        { actions := [.updateProfile resp.data]
          result := { success := true, data := some resp.data, error := none } }
      else
        let msg := jsOrStr resp.message "Profile update failed"
        { actions := []
          result := { success := false, data := none, error := some msg } }
  | .error e =>
      { actions := []
        result :=
          { success := false, data := none
            error := some (jsOrStr e.message "Profile update failed") } }

/-- `changePassword` from AuthContext: returns `{ success: true, data:
response.data }` on any resolved response, without checking
`response.success`. -/
def changePassword {α : Type} (outcome : Except JsError (ApiResp α)) :
    ActionResult α :=
  match outcome with
  | .ok resp => { success := true, data := some resp.data, error := none }
  | .error e =>
      { success := false, data := none
        error := some (jsOrStr e.message "Password change failed") }

/-- `forgotPassword` from AuthContext: same structure as `changePassword`
with its own fallback message. -/
def forgotPassword {α : Type} (outcome : Except JsError (ApiResp α)) :
    ActionResult α :=
  match outcome with
  | .ok resp => { success := true, data := some resp.data, error := none }
  | .error e =>
      { success := false, data := none
        error := some (jsOrStr e.message "Password reset request failed") }

/-- `resetPassword` from AuthContext. -/
def resetPassword {α : Type} (outcome : Except JsError (ApiResp α)) :
    ActionResult α :=
  match outcome with
  | .ok resp => { success := true, data := some resp.data, error := none }
  | .error e =>
      { success := false, data := none
        error := some (jsOrStr e.message "Password reset failed") }

/-- `getSessions` from AuthContext. -/
def getSessions {α : Type} (outcome : Except JsError (ApiResp α)) :
    ActionResult α :=
  match outcome with
  | .ok resp => { success := true, data := some resp.data, error := none }
  | .error e =>
      { success := false, data := none
        error := some (jsOrStr e.message "Failed to get sessions") }

/-- `revokeSession` from AuthContext. -/
def revokeSession {α : Type} (outcome : Except JsError (ApiResp α)) :
    ActionResult α :=
  match outcome with
  | .ok resp => { success := true, data := some resp.data, error := none }
  | .error e =>
      { success := false, data := none
        error := some (jsOrStr e.message "Failed to revoke session") }

/-- `hasPermission` from AuthContext. -/
def hasPermission (state : AuthState) (permission : String) : Bool :=
  match state.user with
  | none => false
  | some u =>
      if u.role = "InstituteAdmin" then true
      else state.permissions.any (fun perm => perm.name == permission)

/-- A student roster entry; the view keys everything by `student._id`. -/
structure Student where
  sid : String
deriving DecidableEq, Repr

/-- An entry of the in-memory attendance map: `{ status, markedAt,
markedBy }`. -/
structure AttRecord where
  status : String
  markedAt : String
  markedBy : String
deriving DecidableEq, Repr

/-- The in-memory attendance map (a JS object keyed by student id),
modelled as an association list in key-insertion order. -/
abbrev AttMap : Type := List (String × AttRecord)

/-- JS property read `attendance[studentId]`. -/
def lookupRec : AttMap → String → Option AttRecord
  | [], _ => none
  | (k, v) :: rest, key => if key = k then some v else lookupRec rest key

/-- JS object spread `{ ...prev, [studentId]: v }`: an existing string key
keeps its position with the new value; a new key goes to the end. -/
def updateAssoc : AttMap → String → AttRecord → AttMap
  | [], k, v => [(k, v)]
  | (k', v') :: rest, k, v =>
      if k' = k then (k, v) :: rest else (k', v') :: updateAssoc rest k v

/-- `markAttendance(studentId, status)` from StudentAttendanceView: one
write call; the local map is updated only when the response reports
success (`writeOk`). `now` is `new Date().toISOString()` and `uid` is
`user.id`. -/
def markAttendance (writeOk : Bool) (now uid : String) (att : AttMap)
    (studentId status : String) : AttMap :=
  if writeOk then
    updateAssoc att studentId { status := status, markedAt := now, markedBy := uid }
  else att

/-- The record `markAllPresent` writes for each student. -/
def presentRecord (now uid : String) : AttRecord :=
  { status := "present", markedAt := now, markedBy := uid }

/-- `markAllPresent` from StudentAttendanceView: filter the roster to the
students with no record in the map, then mark each present sequentially.
`ok` gives each write call's success. -/
def markAllPresent (ok : String → Bool) (now uid : String)
    (students : List Student) (att : AttMap) : AttMap :=
  let unmarkedStudents := students.filter (fun s => (lookupRec att s.sid).isNone)
  unmarkedStudents.foldl
    (fun m s => markAttendance (ok s.sid) now uid m s.sid "present") att

/-- The stats object returned by `getAttendanceStats`. JS numbers are
modelled as `Int` (the subtraction can go negative in JS). -/
structure AttStats where
  total : Int
  marked : Int
  present : Int
  absent : Int
  unmarked : Int
deriving DecidableEq, Repr

/-- `getAttendanceStats` from StudentAttendanceView. -/
def getAttendanceStats (students : List Student) (attendance : AttMap) : AttStats :=
  let total : Int := students.length
  let marked : Int := attendance.length
  let present : Int :=
    (attendance.filter (fun kv => kv.2.status == "present")).length
  let absent : Int :=
    (attendance.filter (fun kv => kv.2.status == "absent")).length
  { total := total, marked := marked, present := present, absent := absent,
    unmarked := total - marked }

/-- The user prop of StudentAttendanceView: the fields the view reads. -/
structure AttUser where
  id : String
  role : String
deriving DecidableEq, Repr

/-- `cls.classIncharge`: either a populated object carrying `_id` or a
plain id string. -/
inductive InchargeRef where
  | obj (oid : String)
  | raw (rid : String)
deriving DecidableEq, Repr

/-- `cls.classIncharge?._id === user.id || cls.classIncharge === user.id`:
an object compares by its `_id`; a raw string compares directly; a missing
reference matches nothing. -/
def inchargeMatches (r : Option InchargeRef) (uid : String) : Bool :=
  match r with
  | none => false
  | some (.obj oid) => oid == uid
  | some (.raw rid) => rid == uid

/-- A class entry as consumed by `loadAccessibleClasses`. -/
structure ClassInfo where
  cid : String
  classIncharge : Option InchargeRef
deriving DecidableEq, Repr

/-- A resolved `GET` classes response: `response.success` and
`response.data || []`. -/
structure ClassResponse where
  success : Bool
  data : Option (List ClassInfo)
deriving DecidableEq, Repr

/-- Observable outcome of `loadAccessibleClasses` from a fresh mount
(`classes` and `selectedClass` both start empty): which endpoint was
fetched (`none` when the role short-circuits without a fetch), the
resulting class list, and the auto-selected first class. -/
structure LoadResult where
  endpointUsed : Option String
  classes : List ClassInfo
  selected : Option ClassInfo
deriving DecidableEq, Repr

/-- The shared tail of `loadAccessibleClasses` after an endpoint was
chosen: on success take `response.data || []`, apply the teacher-incharge
filter when the role was `Teacher` (`teacherId = some user.id`), set the
class list and select its head; on an unsuccessful response or a rejection
the state keeps its initial empty values. -/
def handleClassesFetch (endpoint : String) (teacherId : Option String)
    (response : Except JsError ClassResponse) : LoadResult :=
  match response with
  | .ok resp =>
      if resp.success then
        let accessibleClasses := resp.data.getD []
        let filteredClasses :=
          match teacherId with
          | some uid =>
              accessibleClasses.filter (fun cls => inchargeMatches cls.classIncharge uid)
          | none => accessibleClasses
        { endpointUsed := some endpoint
          classes := filteredClasses
          selected := filteredClasses.head? }
      else
        { endpointUsed := some endpoint, classes := [], selected := none }
  | .error _ => { endpointUsed := some endpoint, classes := [], selected := none }

/-- `loadAccessibleClasses` from StudentAttendanceView: `InstituteAdmin`
and `IT` fetch `/api/classes` unfiltered; `Teacher` fetches
`/api/classes/teacher-access/{id}` and client-side filters to classes
where the user is the class incharge; every other role (or a missing
user) sets an empty list and returns without fetching. -/
def loadAccessibleClasses (user : Option AttUser)
    (response : Except JsError ClassResponse) : LoadResult :=
  match user with
  | some u =>
      if u.role = "InstituteAdmin" ∨ u.role = "IT" then
        handleClassesFetch "/api/classes" none response
      else if u.role = "Teacher" then
        handleClassesFetch ("/api/classes/teacher-access/" ++ u.id) (some u.id) response
      else
        { endpointUsed := none, classes := [], selected := none }
  | none => { endpointUsed := none, classes := [], selected := none }

/-- The uniform shape of an action function's returned object: a success
flag together with either a data payload or an error message string. -/
def wellFormedResult {α : Type} (r : ActionResult α) : Prop :=
  (r.success = true ∧ r.data.isSome = true ∧ r.error = none) ∨
  (r.success = false ∧ r.data = none ∧ ∃ m, r.error = some m)

/-- C9: for every invocation of `logout` (with or without the logout-all
flag), whether the remote revoke call succeeds or rejects, the final local
auth state is the cleared initial state: not authenticated, no user, no
permissions, no error, not loading. -/
theorem logout_clears_state (s : AuthState) (logoutAll : Bool)
    (outcome : Except JsError Unit) :
    applyActions s (logout logoutAll outcome) =
      { isAuthenticated := false, isLoading := false, user := none,
        error := none, permissions := [] } := rfl

/-- C2: when a session user exists, `hasPermission` returns true for every
permission name if the user's role is `"InstituteAdmin"`, and otherwise
returns true exactly when the permission set contains an entry whose name
equals the queried name. -/
theorem hasPermission_spec (s : AuthState) (u : User) (p : String)
    (h : s.user = some u) :
    hasPermission s p =
      if u.role = "InstituteAdmin" then true
      else s.permissions.any (fun perm => perm.name == p) := by
  unfold hasPermission
  rw [h]

/-- Witness for `hasPermission_spec` at a concrete non-admin state holding
one permission. -/
theorem hasPermission_spec_witness :
    (let s : AuthState :=
       { isAuthenticated := true, isLoading := false,
         user := some { id := "u1", role := "Teacher", permissions := none },
         error := none, permissions := [{ name := "manage" }] };
     s.user = some { id := "u1", role := "Teacher", permissions := none } ∧
     hasPermission s "manage" = true) := by
  exact ⟨rfl,
    (hasPermission_spec
        { isAuthenticated := true, isLoading := false,
          user := some { id := "u1", role := "Teacher", permissions := none },
          error := none, permissions := [{ name := "manage" }] }
        { id := "u1", role := "Teacher", permissions := none }
        "manage" rfl).trans (by decide)⟩

/-- C8: with a cached token and cached user, a successful background
validation leaves the session holding the fresh user payload returned by
the server (`response.data.user || response.data`), not the cached record,
and the session authenticated. -/
theorem initializeAuth_fresh_user (t : String) (u : User) (d : VerifyData) :
    (initializeAuth (some t) (some u) (.ok { success := true, data := d })).state.user
        = some (freshUser d) ∧
    (initializeAuth (some t) (some u)
        (.ok { success := true, data := d })).state.isAuthenticated = true :=
  ⟨rfl, rfl⟩

/-- C1: with a cached token and cached user, a rejected background
validation clears the session and removes the cached tokens exactly when
the error carries status 401 or a 401-mentioning message; any other
rejection keeps the cached tokens and leaves the session authenticated
with the original cached user. -/
theorem initializeAuth_reject_classifies (t : String) (u : User) (e : JsError) :
    initializeAuth (some t) (some u) (.error e) =
      if is401 e then { state := loggedOutState, tokensCleared := true }
      else { state := cachedRestoreState u, tokensCleared := false } := by
  unfold initializeAuth
  cases h : is401 e <;>
    simp [h, cachedRestoreState, loggedOutState, applyActions, authReducer,
      initialState]

/-- C10: `changePassword`, `forgotPassword` and `resetPassword` return
`{ success: true, data: response.data }` on every resolved response —
including responses whose own `success` flag is false — and return a
failure result only on a rejection. -/
theorem password_actions_ignore_success_flag (α : Type) (r : ApiResp α)
    (e : JsError) :
    changePassword (.ok r) =
      ({ success := true, data := some r.data, error := none } : ActionResult α) ∧
    forgotPassword (.ok r) =
      ({ success := true, data := some r.data, error := none } : ActionResult α) ∧
    resetPassword (.ok r) =
      ({ success := true, data := some r.data, error := none } : ActionResult α) ∧
    changePassword (.error e) =
      ({ success := false, data := none,
         error := some (jsOrStr e.message "Password change failed") } : ActionResult α) ∧
    forgotPassword (.error e) =
      ({ success := false, data := none,
         error := some (jsOrStr e.message "Password reset request failed") } : ActionResult α) ∧
    resetPassword (.error e) =
      ({ success := false, data := none,
         error := some (jsOrStr e.message "Password reset failed") } : ActionResult α) :=
  ⟨rfl, rfl, rfl, rfl, rfl, rfl⟩

lemma wellFormed_ok {α : Type} (d : α) :
    wellFormedResult { success := true, data := some d, error := none } :=
  Or.inl ⟨rfl, rfl, rfl⟩

lemma wellFormed_err {α : Type} (m : String) :
    wellFormedResult
      ({ success := false, data := none, error := some m } : ActionResult α) :=
  Or.inr ⟨rfl, rfl, m, rfl⟩

lemma login_result_wf (o : Except JsError LoginResponse) :
    wellFormedResult (login o).result := by
  cases o with
  | ok resp =>
      cases hr : resp.success
      · simp only [login, hr, Bool.false_eq_true, if_false]
        exact wellFormed_err _
      · simp only [login, hr, if_true]
        exact wellFormed_ok _
  | error e => exact wellFormed_err _

lemma register_result_wf (o : Except JsError LoginResponse) :
    wellFormedResult (register o).result := by
  cases o with
  | ok resp =>
      cases hr : resp.success
      · simp only [register, hr, Bool.false_eq_true, if_false]
        exact wellFormed_err _
      · simp only [register, hr, if_true]
        exact wellFormed_ok _
  | error e => exact wellFormed_err _

lemma updateProfile_result_wf (o : Except JsError (ApiResp (Option User → User))) :
    wellFormedResult (updateProfile o).result := by
  cases o with
  | ok resp =>
      cases hr : resp.success
      · simp only [updateProfile, hr, Bool.false_eq_true, if_false]
        exact wellFormed_err _
      · simp only [updateProfile, hr, if_true]
        exact wellFormed_ok _
  | error e => exact wellFormed_err _

lemma changePassword_result_wf {α : Type} (o : Except JsError (ApiResp α)) :
    wellFormedResult (changePassword o) := by
  cases o with
  | ok resp => exact wellFormed_ok _
  | error e => exact wellFormed_err _

lemma forgotPassword_result_wf {α : Type} (o : Except JsError (ApiResp α)) :
    wellFormedResult (forgotPassword o) := by
  cases o with
  | ok resp => exact wellFormed_ok _
  | error e => exact wellFormed_err _

lemma resetPassword_result_wf {α : Type} (o : Except JsError (ApiResp α)) :
    wellFormedResult (resetPassword o) := by
  cases o with
  | ok resp => exact wellFormed_ok _
  | error e => exact wellFormed_err _

lemma getSessions_result_wf {α : Type} (o : Except JsError (ApiResp α)) :
    wellFormedResult (getSessions o) := by
  cases o with
  | ok resp => exact wellFormed_ok _
  | error e => exact wellFormed_err _

lemma revokeSession_result_wf {α : Type} (o : Except JsError (ApiResp α)) :
    wellFormedResult (revokeSession o) := by
  cases o with
  | ok resp => exact wellFormed_ok _
  | error e => exact wellFormed_err _

/-- C6: every mutating auth action function (`login`, `register`,
`updateProfile`, `changePassword`, `forgotPassword`, `resetPassword`,
`getSessions`, `revokeSession`), for every collaborator outcome including
rejection, returns a result object carrying a success flag plus either a
data payload or an error message string. (That none of them throws to the
caller is reflected in each being a total function of the collaborator
outcome, mirroring the source's catch-all `try`/`catch` wrappers.) -/
theorem authActions_uniform_shape (α : Type)
    (oLogin oReg : Except JsError LoginResponse)
    (oProf : Except JsError (ApiResp (Option User → User)))
    (oCp oFp oRp oGs oRv : Except JsError (ApiResp α)) :
    wellFormedResult (login oLogin).result ∧
    wellFormedResult (register oReg).result ∧
    wellFormedResult (updateProfile oProf).result ∧
    wellFormedResult (changePassword oCp) ∧
    wellFormedResult (forgotPassword oFp) ∧
    wellFormedResult (resetPassword oRp) ∧
    wellFormedResult (getSessions oGs) ∧
    wellFormedResult (revokeSession oRv) :=
  ⟨login_result_wf oLogin, register_result_wf oReg, updateProfile_result_wf oProf,
   changePassword_result_wf oCp, forgotPassword_result_wf oFp,
   resetPassword_result_wf oRp, getSessions_result_wf oGs,
   revokeSession_result_wf oRv⟩

/-- C3 counterexample: starting from an authenticated state, a failing
`register` call (collaborator rejects) populates the error message but
does NOT clear authentication — its failure path dispatches `SET_ERROR`,
which leaves `isAuthenticated`, `user` and `permissions` untouched. -/
theorem register_failure_keeps_auth_cex :
    (let s0 : AuthState :=
       { isAuthenticated := true, isLoading := false,
         user := some { id := "u1", role := "Teacher", permissions := none },
         error := none, permissions := [{ name := "manage" }] };
     let s1 := applyActions s0 (register (.error { status := none, message := none })).actions;
     s1.isAuthenticated = true ∧
     s1.user = some { id := "u1", role := "Teacher", permissions := none } ∧
     s1.permissions = [{ name := "manage" }] ∧
     s1.error = some "Registration failed") := by
  exact ⟨rfl, rfl, rfl, rfl⟩

/-- C3 amended: a failing `login` populates the error message and clears
authentication (not authenticated, no user, empty permission set); a
failing `register` populates the error message and clears the loading
flag but leaves `isAuthenticated`, `user` and `permissions` at their
prior values, so authentication ends cleared only when it already was. -/
theorem login_register_failure_amended (s : AuthState) (e : JsError)
    (resp : LoginResponse) :
    (resp.success = false →
      applyActions s (login (.ok resp)).actions =
        { isAuthenticated := false, isLoading := false, user := none,
          permissions := [], error := some (jsOrStr resp.message "Login failed") }) ∧
    (applyActions s (login (.error e)).actions =
      { isAuthenticated := false, isLoading := false, user := none,
        permissions := [], error := some (jsOrStr e.message "Login failed") }) ∧
    (resp.success = false →
      applyActions s (register (.ok resp)).actions =
        { s with isLoading := false,
                 error := some (jsOrStr resp.message "Registration failed") }) ∧
    (applyActions s (register (.error e)).actions =
      { s with isLoading := false,
               error := some (jsOrStr e.message "Registration failed") }) := by
  refine ⟨fun h => ?_, ?_, fun h => ?_, ?_⟩
  · simp [login, applyActions, authReducer, h]
  · simp [login, applyActions, authReducer]
  · simp [register, applyActions, authReducer, h]
  · simp [register, applyActions, authReducer]

/-- Witness for `login_register_failure_amended`: a concrete unsuccessful
login response from the initial state. -/
theorem login_register_failure_amended_witness :
    ({ success := false, message := some "nope",
       data := { user := { id := "u2", role := "Student", permissions := none } } }
         : LoginResponse).success = false ∧
    applyActions initialState
        (login (.ok
          { success := false, message := some "nope",
            data := { user := { id := "u2", role := "Student", permissions := none } } })).actions =
      { isAuthenticated := false, isLoading := false, user := none,
        permissions := [],
        error := some (jsOrStr (some "nope") "Login failed") } := by
  exact ⟨rfl,
    (login_register_failure_amended initialState { status := none, message := none }
        { success := false, message := some "nope",
          data := { user := { id := "u2", role := "Student", permissions := none } } }).1
      rfl⟩

lemma length_filter_present_absent (l : AttMap)
    (h : ∀ kv ∈ l, kv.2.status = "present" ∨ kv.2.status = "absent") :
    (l.filter (fun kv => kv.2.status == "present")).length +
      (l.filter (fun kv => kv.2.status == "absent")).length = l.length := by
  induction l with
  | nil => rfl
  | cons kv rest ih =>
      have hr : ∀ x ∈ rest, x.2.status = "present" ∨ x.2.status = "absent" :=
        fun x hx => h x (List.mem_cons_of_mem _ hx)
      have ihr := ih hr
      rcases h kv (List.mem_cons_self _ _) with hp | ha
      · simp [List.filter_cons, hp]
        omega
      · simp [List.filter_cons, ha]
        omega

/-- C5: for a roster of `N` students and an attendance map whose entries
all carry status `"present"` or `"absent"` (`P` present, `A` absent), the
derived stats satisfy `unmarked = N - (P + A)`. -/
theorem getAttendanceStats_unmarked (students : List Student) (att : AttMap)
    (h : ∀ kv ∈ att, kv.2.status = "present" ∨ kv.2.status = "absent") :
    (getAttendanceStats students att).unmarked =
      (students.length : Int) -
        ((getAttendanceStats students att).present +
          (getAttendanceStats students att).absent) := by
  have hlen := length_filter_present_absent att h
  simp only [getAttendanceStats]
  omega

/-- Witness for `getAttendanceStats_unmarked`: three students, one present
record and one absent record. -/
theorem getAttendanceStats_unmarked_witness :
    (∀ kv ∈ ([("a", { status := "present", markedAt := "t1", markedBy := "u" }),
              ("b", { status := "absent", markedAt := "t2", markedBy := "u" })] : AttMap),
        kv.2.status = "present" ∨ kv.2.status = "absent") ∧
    (getAttendanceStats [{ sid := "a" }, { sid := "b" }, { sid := "c" }]
        [("a", { status := "present", markedAt := "t1", markedBy := "u" }),
         ("b", { status := "absent", markedAt := "t2", markedBy := "u" })]).unmarked =
      ((3 : Int) -
        ((getAttendanceStats [{ sid := "a" }, { sid := "b" }, { sid := "c" }]
            [("a", { status := "present", markedAt := "t1", markedBy := "u" }),
             ("b", { status := "absent", markedAt := "t2", markedBy := "u" })]).present +
          (getAttendanceStats [{ sid := "a" }, { sid := "b" }, { sid := "c" }]
            [("a", { status := "present", markedAt := "t1", markedBy := "u" }),
             ("b", { status := "absent", markedAt := "t2", markedBy := "u" })]).absent)) := by
  refine ⟨by decide, ?_⟩
  exact getAttendanceStats_unmarked
    [{ sid := "a" }, { sid := "b" }, { sid := "c" }]
    [("a", { status := "present", markedAt := "t1", markedBy := "u" }),
     ("b", { status := "absent", markedAt := "t2", markedBy := "u" })]
    (by decide)

lemma lookupRec_updateAssoc (m : AttMap) (k : String) (v : AttRecord)
    (key : String) :
    lookupRec (updateAssoc m k v) key =
      if key = k then some v else lookupRec m key := by
  induction m with
  | nil => simp [updateAssoc, lookupRec]
  | cons kv rest ih =>
      obtain ⟨k', v'⟩ := kv
      by_cases h1 : k' = k
      · subst h1
        by_cases h2 : key = k' <;> simp [updateAssoc, lookupRec, h2]
      · by_cases h2 : key = k'
        · subst h2
          simp [updateAssoc, lookupRec, h1]
        · simp [updateAssoc, lookupRec, h1, h2, ih]

lemma markAllPresent_fold_lookup (ok : String → Bool) (now uid : String)
    (l : List Student) (m : AttMap) (k : String)
    (hok : ∀ s ∈ l, ok s.sid = true) :
    lookupRec
        (l.foldl (fun acc s => markAttendance (ok s.sid) now uid acc s.sid "present") m)
        k =
      if l.any (fun s => s.sid == k) then some (presentRecord now uid)
      else lookupRec m k := by
  induction l generalizing m with
  | nil => simp
  | cons s rest ih =>
      have hs : ok s.sid = true := hok s (List.mem_cons_self _ _)
      have hr : ∀ t ∈ rest, ok t.sid = true :=
        fun t ht => hok t (List.mem_cons_of_mem _ ht)
      simp only [List.foldl_cons, List.any_cons]
      have hstep :
          markAttendance (ok s.sid) now uid m s.sid "present" =
            updateAssoc m s.sid (presentRecord now uid) := by
        simp [markAttendance, hs, presentRecord]
      rw [hstep, ih _ hr, lookupRec_updateAssoc]
      by_cases h1 : rest.any (fun t => t.sid == k)
      · simp [h1]
      · by_cases h2 : k = s.sid
        · simp [h1, h2]
        · have : ¬ (s.sid == k) = true := by
            simp [beq_iff_eq]
            exact fun hk => h2 hk.symm
          simp [h1, h2, this]

/-- C4: after `markAllPresent` completes with every write call succeeding,
every student who previously had no record in the attendance map has a
`"present"` record, and the record of every previously-marked student is
unchanged. -/
theorem markAllPresent_spec (ok : String → Bool) (now uid : String)
    (students : List Student) (att : AttMap)
    (hok : ∀ s ∈ students, ok s.sid = true) (s : Student)
    (hmem : s ∈ students) :
    (lookupRec att s.sid = none →
      lookupRec (markAllPresent ok now uid students att) s.sid =
        some (presentRecord now uid)) ∧
    (∀ r, lookupRec att s.sid = some r →
      lookupRec (markAllPresent ok now uid students att) s.sid = some r) := by
  unfold markAllPresent
  have hok' :
      ∀ t ∈ students.filter (fun t => (lookupRec att t.sid).isNone),
        ok t.sid = true :=
    fun t ht => hok t (List.mem_of_mem_filter ht)
  rw [markAllPresent_fold_lookup ok now uid _ att s.sid hok']
  constructor
  · intro hnone
    have hin :
        (students.filter (fun t => (lookupRec att t.sid).isNone)).any
          (fun t => t.sid == s.sid) = true := by
      apply List.any_eq_true.mpr
      exact ⟨s, List.mem_filter.mpr ⟨hmem, by simp [hnone]⟩, by simp⟩
    simp [hin]
  · intro r hr
    have hout :
        (students.filter (fun t => (lookupRec att t.sid).isNone)).any
          (fun t => t.sid == s.sid) = false := by
      rw [Bool.eq_false_iff]
      intro hany
      obtain ⟨t, ht, hteq⟩ := List.any_eq_true.mp hany
      have htid : t.sid = s.sid := by simpa using hteq
      have htnone : (lookupRec att t.sid).isNone = true :=
        (List.mem_filter.mp ht).2
      rw [htid, hr] at htnone
      simp at htnone
    simp [hout, hr]

/-- Witness for `markAllPresent_spec`: two students, one already marked
absent; both conclusions evaluated at each student. -/
theorem markAllPresent_spec_witness :
    (∀ s ∈ ([{ sid := "s1" }, { sid := "s2" }] : List Student),
        (fun _ => true) s.sid = true) ∧
    ({ sid := "s1" } : Student) ∈ ([{ sid := "s1" }, { sid := "s2" }] : List Student) ∧
    lookupRec [("s2", { status := "absent", markedAt := "t0", markedBy := "u0" })] "s1" = none ∧
    lookupRec
        (markAllPresent (fun _ => true) "t1" "u1"
          [{ sid := "s1" }, { sid := "s2" }]
          [("s2", { status := "absent", markedAt := "t0", markedBy := "u0" })])
        "s1" = some (presentRecord "t1" "u1") := by
  refine ⟨by decide, by decide, by decide, ?_⟩
  exact
    (markAllPresent_spec (fun _ => true) "t1" "u1"
        [{ sid := "s1" }, { sid := "s2" }]
        [("s2", { status := "absent", markedAt := "t0", markedBy := "u0" })]
        (by decide) { sid := "s1" } (by decide)).1 (by decide)

/-- C7: `loadAccessibleClasses` selects the endpoint by role — the
administrator roles (`InstituteAdmin`, `IT`) fetch `/api/classes` and keep
the returned list unfiltered; the `Teacher` role fetches
`/api/classes/teacher-access/{id}` and client-side filters the result to
classes where the user is the designated class incharge; every other role
yields an empty class list with no fetch at all. -/
theorem loadAccessibleClasses_spec (i : String) (cls : List ClassInfo)
    (u : AttUser) (resp : Except JsError ClassResponse) :
    (loadAccessibleClasses (some { id := i, role := "InstituteAdmin" })
        (.ok { success := true, data := some cls }) =
      { endpointUsed := some "/api/classes", classes := cls,
        selected := cls.head? }) ∧
    (loadAccessibleClasses (some { id := i, role := "IT" })
        (.ok { success := true, data := some cls }) =
      { endpointUsed := some "/api/classes", classes := cls,
        selected := cls.head? }) ∧
    (loadAccessibleClasses (some { id := i, role := "Teacher" })
        (.ok { success := true, data := some cls }) =
      { endpointUsed := some ("/api/classes/teacher-access/" ++ i)
        classes := cls.filter (fun c => inchargeMatches c.classIncharge i)
        selected := (cls.filter (fun c => inchargeMatches c.classIncharge i)).head? }) ∧
    (u.role ≠ "InstituteAdmin" → u.role ≠ "IT" → u.role ≠ "Teacher" →
      loadAccessibleClasses (some u) resp =
        { endpointUsed := none, classes := [], selected := none }) := by
  refine ⟨rfl, rfl, rfl, fun h1 h2 h3 => ?_⟩
  simp [loadAccessibleClasses, h1, h2, h3]

/-- Witness for `loadAccessibleClasses_spec`: a concrete `Student`-role
user gets no fetch and no classes whatever the response would have been. -/
theorem loadAccessibleClasses_spec_witness :
    ("Student" ≠ "InstituteAdmin" ∧ "Student" ≠ "IT" ∧ "Student" ≠ "Teacher") ∧
    loadAccessibleClasses (some { id := "u9", role := "Student" })
        (.ok { success := true, data := some [{ cid := "c1", classIncharge := none }] }) =
      { endpointUsed := none, classes := [], selected := none } := by
  refine ⟨⟨by decide, by decide, by decide⟩, ?_⟩
  exact
    (loadAccessibleClasses_spec "u9" [{ cid := "c1", classIncharge := none }]
        { id := "u9", role := "Student" }
        (.ok { success := true, data := some [{ cid := "c1", classIncharge := none }] })).2.2.2
      (by decide) (by decide) (by decide)
